import Mathlib

/-!
Shallow embedding of the cart-and-checkout workflow of `src/main.py` (the
"savory" Flask application), together with theorems settling the spec's
claims about it.

Modelling conventions:
* A Python dict preserves insertion order, so the cart (`cart = {}` at
  line 49) is a `List (ℕ × PyVal)` with distinct keys kept in insertion
  order.
* Cart values can be Python ints (set by `add_to_cart`) or strings (the
  `update_quantity` POST path stores `request.form[...]`, a string), so
  values are a sum type `PyVal`.
* Unhandled Python exceptions (IndexError, ValueError, TypeError,
  KeyError) are the constructors of `PyError`; handler bodies that can
  raise return `Except PyError _`.
* Meal prices (`db.Float`) and all money arithmetic are modelled in `ℚ`.
-/

namespace Savory

/-- A Python runtime value that can appear as a cart quantity: an int
(written by `add_to_cart`, line 105/107) or a raw form string (written by
`update_quantity`, line 134). -/
inductive PyVal where
  | int (n : ℤ)
  | str (s : String)
deriving DecidableEq, Repr

/-- Unhandled Python exceptions that the handlers can raise. -/
inductive PyError where
  | indexError
  | valueError
  | typeError
  | keyError
deriving DecidableEq, Repr

instance {ε α : Type} [DecidableEq ε] [DecidableEq α] : DecidableEq (Except ε α) := fun x y =>
  match x, y with
  | .ok a, .ok b =>
    if h : a = b then .isTrue (by rw [h]) else .isFalse (by intro hh; cases hh; exact h rfl)
  | .error a, .error b =>
    if h : a = b then .isTrue (by rw [h]) else .isFalse (by intro hh; cases hh; exact h rfl)
  | .ok _, .error _ => .isFalse (by intro hh; cases hh)
  | .error _, .ok _ => .isFalse (by intro hh; cases hh)

/-- Python truthiness of a cart value, as tested by
`if cart.get(meal_id):` (line 104): an int is truthy iff nonzero, a
string iff nonempty. -/
def PyVal.truthy : PyVal → Bool
  | .int n => n ≠ 0
  | .str s => s ≠ ""

/-- The global cart `cart = {}` (line 49): an insertion-ordered mapping
from meal id to quantity value. -/
abbrev Cart : Type := List (ℕ × PyVal)

/-- A catalog row (class `Meal`, lines 26-32): id, name and float price. -/
structure Meal where
  id : ℕ
  name : String
  price : ℚ
deriving DecidableEq, Repr

/-- One element of the list built by `get_line_items` (lines 62-70): the
product name, the `unit_amount_decimal` value `meal['price'] * 100`, and
the cart quantity passed through unchanged. -/
structure LineItem where
  name : String
  unit_amount_decimal : ℚ
  quantity : PyVal
deriving DecidableEq, Repr

/-- `d.get(k)`: first value stored under `k`, if any. -/
def dictGet (c : Cart) (k : ℕ) : Option PyVal :=
  (List.find? (fun p => p.1 = k) c).map Prod.snd

/-- `d[k] = v`: replace in place if `k` is present (a Python dict keeps
the key's position), otherwise append at the end. -/
def dictSet (c : Cart) (k : ℕ) (v : PyVal) : Cart :=
  if List.any c (fun p => p.1 = k) then
    List.map (fun p => if p.1 = k then (k, v) else p) c
  else c ++ [(k, v)]

/-- `d.pop(k)`: remove the entry with key `k`. -/
def dictPop (c : Cart) (k : ℕ) : Cart :=
  List.filter (fun p => !(p.1 = k : Bool)) c

/-- Python list indexing `l[i]` for an `Int` index: a negative index
counts from the end; out of range is an IndexError (`none`). -/
def pyGet {α : Type} (l : List α) (i : ℤ) : Option α :=
  if 0 ≤ i then l.get? i.toNat
  else if (-i).toNat ≤ l.length then l.get? (l.length - (-i).toNat)
  else none

/-- Value of a nonempty all-digit character list, `none` otherwise. -/
def digitsVal (cs : List Char) : Option ℕ :=
  if cs = [] then none
  else if cs.all Char.isDigit then
    some (cs.foldl (fun a ch => 10 * a + (ch.toNat - 48)) 0)
  else none

/-- Model of Python `int(s)` on a string: an optional sign followed by
digits parses; anything else raises ValueError (`none`). -/
def pyIntOfString (s : String) : Option ℤ :=
  match s.toList with
  | '-' :: rest => (digitsVal rest).map (fun n => -(n : ℤ))
  | '+' :: rest => (digitsVal rest).map (fun n => (n : ℤ))
  | cs => (digitsVal cs).map (fun n => (n : ℤ))

/-- Model of Python `float(s)` on a string: optional sign, integer part,
optional decimal point and fraction part. -/
def pyFloatCore (cs : List Char) : Option ℚ :=
  match cs.splitOn '.' with
  | [ip] => (digitsVal ip).map (fun n => (n : ℚ))
  | [ip, fp] =>
    if ip = [] ∧ fp = [] then none
    else
      match (if ip = [] then some 0 else digitsVal ip),
            (if fp = [] then some 0 else digitsVal fp) with
      | some a, some b => some ((a : ℚ) + (b : ℚ) / ((10 : ℚ) ^ fp.length))
      | _, _ => none
  | _ => none

/-- Model of Python `float(v)` as used at line 116: an int converts
exactly; a string is parsed, raising ValueError if malformed. -/
def pyFloat (v : PyVal) : Except PyError ℚ :=
  match v with
  | .int n => .ok (n : ℚ)
  | .str s =>
    match s.toList with
    | '-' :: rest => match pyFloatCore rest with
      | some q => .ok (-q)
      | none => .error .valueError
    | '+' :: rest => match pyFloatCore rest with
      | some q => .ok q
      | none => .error .valueError
    | cs => match pyFloatCore cs with
      | some q => .ok q
      | none => .error .valueError

/-- Python `round` to the nearest integer with ties to even (banker's
rounding). -/
def pyRound (q : ℚ) : ℤ :=
  if q - ⌊q⌋ < 1 / 2 then ⌊q⌋
  else if 1 / 2 < q - ⌊q⌋ then ⌊q⌋ + 1
  else if 2 ∣ ⌊q⌋ then ⌊q⌋ else ⌊q⌋ + 1

/-- Python `round(q, 2)`. -/
def pyRound2 (q : ℚ) : ℚ := ((pyRound (q * 100) : ℤ) : ℚ) / 100

/-- `get_line_items` (lines 56-72). For each cart entry `(item,
quantity)` in iteration order it evaluates `meals[item - 1]` — a
POSITIONAL index into the catalog list, not a lookup by id — and builds
the line-item dict with `unit_amount_decimal = meal['price'] * 100`; an
out-of-range index raises IndexError. Returns `(line_items, meal_ids)`. -/
def get_line_items (meals : List Meal) : Cart → Except PyError (List LineItem × List ℕ)
  | [] => .ok ([], [])
  | (item, quantity) :: rest =>
    match pyGet meals ((item : ℤ) - 1) with
    | none => .error .indexError
    | some meal =>
      match get_line_items meals rest with
      | .error e => .error e
      | .ok (lis, ids) =>
        .ok (⟨meal.name, meal.price * 100, quantity⟩ :: lis, item :: ids)

/-- `add_to_cart` (lines 102-108), route `/update-cart/<int:meal_id>`:
if `cart.get(meal_id)` is truthy run `cart[meal_id] += 1` (TypeError if
the stored value is a string), otherwise set `cart[meal_id] = 1`. No
catalog validation is performed (the function never consults `meals`). -/
def add_to_cart (meal_id : ℕ) (c : Cart) : Except PyError Cart :=
  match dictGet c meal_id with
  | some v =>
    if v.truthy then
      match v with
      | .int n => .ok (dictSet c meal_id (.int (n + 1)))
      | .str _ => .error .typeError
    else .ok (dictSet c meal_id (.int 1))
  | none => .ok (dictSet c meal_id (.int 1))

/-- Body of `update_quantity` after line 128 has resolved the positional
index to the key `cart_idx` (lines 129-136): GET pops the entry; POST
parses the form value with `int(...)` (ValueError if non-numeric,
KeyError if the field is absent), then stores the RAW FORM STRING when
the parsed value is positive, else pops the entry. -/
def update_at_key (cart_idx : ℕ) (isGet : Bool) (form : Option String) (c : Cart) :
    Except PyError Cart :=
  if isGet then .ok (dictPop c cart_idx)
  else
    match form with
    | none => .error .keyError
    | some s =>
      match pyIntOfString s with
      | none => .error .valueError
      | some quantity =>
        if quantity > 0 then .ok (dictSet c cart_idx (.str s))
        else .ok (dictPop c cart_idx)

/-- `update_quantity` (lines 126-138), route
`/update-quantity/<int:item_idx>`: line 128 evaluates
`list(cart.keys())[item_idx]` — IndexError when the positional index is
out of range — and the rest of the body operates on that key. -/
def update_quantity (item_idx : ℕ) (isGet : Bool) (form : Option String) (c : Cart) :
    Except PyError Cart :=
  match (List.map Prod.fst c).get? item_idx with
  | none => .error .indexError
  | some cart_idx => update_at_key cart_idx isGet form c

/-- `shopping_cart` (lines 111-123): derives the line items, then
accumulates `total += unit_amount_decimal / 100 * float(quantity)` and
renders `round(total, 2)` together with the line items and meal ids. -/
def shopping_cart (meals : List Meal) (c : Cart) :
    Except PyError (ℚ × (List LineItem × List ℕ)) := do
  let (line_items, meal_ids) ← get_line_items meals c
  let total ← line_items.foldlM
    (fun t it => do
      let q ← pyFloat it.quantity
      pure (t + it.unit_amount_decimal / 100 * q))
    (0 : ℚ)
  pure (pyRound2 total, (line_items, meal_ids))

/-- Where a handler sends the client next. -/
inductive Redirect where
  | provider
  | home
  | login
  | shoppingCart
deriving DecidableEq, Repr

/-- Observable outcome of `create_checkout_session`: whether the
external payment service was called, the cart afterwards, the redirect
target, and the flash notices shown to the user. -/
structure CheckoutResult where
  paymentCalled : Bool
  cart : Cart
  target : Redirect
  flashed : List String
deriving DecidableEq, Repr

/-- `create_checkout_session` (lines 75-88): an authenticated user with
a nonempty cart triggers the payment-session call (built from
`get_line_items`, which can raise) and a 303 redirect to the provider
URL; an authenticated user with an empty cart is redirected home; an
unauthenticated user gets a flash notice and a redirect to login. The
cart is never mutated here. -/
def create_checkout_session (meals : List Meal) (authed : Bool) (c : Cart) :
    Except PyError CheckoutResult :=
  if authed then
    if !(c = ([] : Cart) : Bool) then
      (get_line_items meals c).map (fun _ => ⟨true, c, .provider, []⟩)
    else .ok ⟨false, c, .home, []⟩
  else .ok ⟨false, c, .login, ["You must be signed in to checkout. Please log in!"]⟩

/-- `order_success` (lines 91-94), route `/order/success`: no
authentication guard and no precondition; it unconditionally runs
`cart.clear()` and renders the success template. The session state is a
parameter only to record that the handler ignores it. -/
def order_success (_authed : Bool) (_c : Cart) : Cart × String :=
  (([] : Cart), "success.html")

/-- The two-meal catalog of the spec's worked example:
Soup at 4.50 and Salad at 6.00. -/
def mealsSoupSalad : List Meal :=
  [⟨1, "Soup", 9 / 2⟩, ⟨2, "Salad", 6⟩]

/-- The same catalog with the two rows swapped. -/
def mealsReordered : List Meal :=
  [⟨2, "Salad", 6⟩, ⟨1, "Soup", 9 / 2⟩]

/-! Helper lemmas. -/

/-- A successful Python list index returns an element of the list. -/
theorem pyGet_mem {α : Type} {l : List α} {i : ℤ} {a : α} (h : pyGet l i = some a) : a ∈ l := by
  unfold pyGet at h
  split at h
  · exact List.get?_mem h
  · split at h
    · exact List.get?_mem h
    · cases h

/-- Rounding an integer is the identity. -/
theorem pyRound_intCast (n : ℤ) : pyRound (n : ℚ) = n := by
  unfold pyRound
  rw [Int.floor_intCast]
  norm_num

/-- A rational with denominator one is fixed by `pyRound`. -/
theorem intCast_pyRound_of_den_eq_one {q : ℚ} (h : q.den = 1) : ((pyRound q : ℤ) : ℚ) = q := by
  have hq : ((q.num : ℚ)) = q := (Rat.den_eq_one_iff q).mp h
  rw [← hq, pyRound_intCast]

/-! Claim theorems. -/

/-- Claim C1 (refuted; the code is the slip). `get_line_items` indexes
the catalog list POSITIONALLY by `meals[item - 1]`, not by id: with the
two-meal catalog, a cart holding item id 1 yields the Soup line item,
but after merely reordering the same catalog the identical cart yields
the Salad line item — the output is NOT invariant under reordering even
though every cart key references an existing CatalogItem id. A cart key
with no matching position (id 3) raises an unhandled IndexError, not an
UnknownItem error. -/
theorem get_line_items_positional_indexing :
    (get_line_items mealsSoupSalad [(1, PyVal.int 1)] =
      .ok ([⟨"Soup", 450, PyVal.int 1⟩], [1])) ∧
    (get_line_items mealsReordered [(1, PyVal.int 1)] =
      .ok ([⟨"Salad", 600, PyVal.int 1⟩], [1])) ∧
    (get_line_items mealsSoupSalad [(3, PyVal.int 1)] = .error .indexError) := by
  refine ⟨?_, ?_, ?_⟩
  · norm_num [get_line_items, mealsSoupSalad, pyGet]
  · norm_num [get_line_items, mealsReordered, pyGet]
  · decide

/-- Claim C2 (refuted; the code is the slip). On the set path,
`update_quantity` stores the RAW FORM STRING "3" rather than the integer
3; a non-numeric form value raises an unhandled ValueError (there is no
InvalidQuantity handling). The removal branch for a non-positive parsed
quantity does behave as claimed. -/
theorem update_quantity_stores_string_and_faults :
    (update_quantity 0 false (some "3") [(1, PyVal.int 2)] = .ok [(1, PyVal.str "3")]) ∧
    (update_quantity 0 false (some "abc") [(1, PyVal.int 2)] = .error .valueError) ∧
    (update_quantity 0 false (some "0") [(1, PyVal.int 2)] = .ok []) := by decide

/-- Claim C3 (refuted; the code is the slip). `add_to_cart` performs no
catalog validation whatsoever — it does not even take the catalog as an
input — so incrementing an id absent from the catalog (999, not an id of
`mealsSoupSalad`) succeeds and stores quantity 1 instead of failing with
InvalidItem. -/
theorem add_to_cart_accepts_unknown_id :
    add_to_cart 999 [] = .ok [(999, PyVal.int 1)] ∧
      mealsSoupSalad.all (fun m => m.id ≠ 999) = true := by decide

/-- Claim C4 counterexample. With a catalog item priced 4.555 (= 911/200)
the derived `unit_amount_decimal` is 911/2 = 455.5: its denominator is 2,
so it is not an integer, and it differs from round(unitPrice * 100). -/
theorem unit_amount_not_rounded_counterexample :
    (get_line_items [⟨1, "Soup", 911 / 200⟩] [(1, PyVal.int 1)] =
      .ok ([⟨"Soup", 911 / 2, PyVal.int 1⟩], [1])) ∧
    ((911 : ℚ) / 2).den = 2 ∧
    ((911 : ℚ) / 2) ≠ ((pyRound ((911 / 200 : ℚ) * 100) : ℤ) : ℚ) := by
  refine ⟨?_, ?_, ?_⟩
  · norm_num [get_line_items, pyGet]
  · norm_num
  · norm_num [pyRound]

/-- Claim C4 as amended: every derived line item carries
`unit_amount_decimal = unitPrice * 100` exactly, with no rounding
applied; whenever `unitPrice * 100` is an integer (denominator one, as
for prices with at most two decimal places) this coincides with
round(unitPrice * 100). -/
theorem unit_amount_equals_price_times_100 (meals : List Meal) (c : Cart) (lis : List LineItem)
    (ids : List ℕ) (h : get_line_items meals c = .ok (lis, ids)) :
    ∀ li ∈ lis, ∃ meal ∈ meals, li.unit_amount_decimal = meal.price * 100 ∧
      ((meal.price * 100).den = 1 →
        li.unit_amount_decimal = ((pyRound (meal.price * 100) : ℤ) : ℚ)) := by
  induction c generalizing lis ids with
  | nil =>
    simp only [get_line_items, Except.ok.injEq, Prod.mk.injEq] at h
    rw [← h.1]
    intro li hli
    cases hli
  | cons hd tl ih =>
    obtain ⟨item, quantity⟩ := hd
    simp only [get_line_items] at h
    cases hm : pyGet meals ((item : ℤ) - 1) with
    | none => rw [hm] at h; cases h
    | some meal =>
      rw [hm] at h
      cases hr : get_line_items meals tl with
      | error e => rw [hr] at h; cases h
      | ok p =>
        obtain ⟨lis0, ids0⟩ := p
        rw [hr] at h
        cases h
        intro li hli
        rcases List.mem_cons.mp hli with hli | hli
        · refine ⟨meal, pyGet_mem hm, ?_, ?_⟩
          · rw [hli]
          · intro hden
            rw [hli]
            show meal.price * 100 = _
            rw [intCast_pyRound_of_den_eq_one hden]
        · exact ih lis0 ids0 hr li hli

/-- Witness for the amended claim C4 at the Soup line item. -/
theorem unit_amount_equals_price_times_100_witness :
    ∃ meal ∈ mealsSoupSalad,
      (LineItem.mk "Soup" 450 (PyVal.int 2)).unit_amount_decimal = meal.price * 100 ∧
        ((meal.price * 100).den = 1 →
          (LineItem.mk "Soup" 450 (PyVal.int 2)).unit_amount_decimal =
            ((pyRound (meal.price * 100) : ℤ) : ℚ)) :=
  unit_amount_equals_price_times_100 mealsSoupSalad [(1, PyVal.int 2)]
    [⟨"Soup", 450, PyVal.int 2⟩] [1] (by norm_num [get_line_items, mealsSoupSalad, pyGet])
    ⟨"Soup", 450, PyVal.int 2⟩ (List.Mem.head _)

/-- Claim C5. With the Soup/Salad catalog, running `add_to_cart 1` twice
and `add_to_cart 2` once from the empty cart, then deriving the cart
view, yields line items [("Soup", 450 cents, 2), ("Salad", 600 cents,
1)] in that order, meal ids [1, 2], and a rounded total of 15. -/
theorem soup_salad_example :
    (do
      let c1 ← add_to_cart 1 ([] : Cart)
      let c2 ← add_to_cart 1 c1
      let c3 ← add_to_cart 2 c2
      shopping_cart mealsSoupSalad c3) =
      .ok (15, ([⟨"Soup", 450, PyVal.int 2⟩, ⟨"Salad", 600, PyVal.int 1⟩], [1, 2])) := by
  norm_num [shopping_cart, get_line_items, mealsSoupSalad, pyGet, add_to_cart, dictGet, dictSet,
    PyVal.truthy, pyFloat, pyRound2, pyRound, List.foldlM, bind, Except.bind, pure, Except.pure,
    List.find?, List.any]

/-- Claim C6. For every prior cart (and either session state) the
success handler leaves an empty cart, and running it a second time on
its own output changes nothing: clearing an empty cart is a no-op. -/
theorem order_success_clears_cart_idempotent (authed : Bool) (c : Cart) :
    (order_success authed c).1 = [] ∧
      order_success authed (order_success authed c).1 = order_success authed c :=
  ⟨rfl, rfl⟩

/-- Claim C7. For every catalog and every cart, an unauthenticated
checkout request never calls the payment service, leaves the cart
unchanged, redirects to the login flow, and flashes the sign-in
notice. -/
theorem checkout_unauthenticated_rejects (meals : List Meal) (c : Cart) :
    create_checkout_session meals false c =
      .ok ⟨false, c, .login, ["You must be signed in to checkout. Please log in!"]⟩ := rfl

/-- Claim C8 (refuted; the code is the slip). The claimed invariant
"every stored cart value is a positive integer" is broken by the
set-quantity path: after `add_to_cart 2` and a POST set to "5" the cart
holds the string "5", and the next `add_to_cart 2` raises an unhandled
TypeError instead of incrementing. -/
theorem increment_after_set_quantity_type_fault :
    (update_quantity 0 false (some "5") [(2, PyVal.int 1)] = .ok [(2, PyVal.str "5")]) ∧
    ((do
      let c1 ← add_to_cart 2 ([] : Cart)
      let c2 ← update_quantity 0 false (some "5") c1
      add_to_cart 2 c2) = Except.error PyError.typeError) := by decide

/-- Claim C9. For every cart of length n: a positional index idx ≥ n
makes `update_quantity` fail with an unhandled IndexError before any
cart mutation (the model has no CartError at all — `PyError` holds only
unhandled Python exceptions); for idx < n the handler operates exactly
on the idx-th key of the cart in iteration order, via `update_at_key`. -/
theorem update_quantity_positional_addressing (c : Cart) (idx : ℕ) (isGet : Bool)
    (form : Option String) :
    (c.length ≤ idx → update_quantity idx isGet form c = .error .indexError) ∧
    (∀ h : idx < c.length,
      update_quantity idx isGet form c =
        update_at_key ((List.map Prod.fst c).get ⟨idx, by simpa using h⟩) isGet form c) := by
  constructor
  · intro hle
    unfold update_quantity
    have hnone : (List.map Prod.fst c).get? idx = none := by
      rw [List.get?_eq_getElem?]
      exact List.getElem?_eq_none (by simpa using hle)
    rw [hnone]
  · intro h
    unfold update_quantity
    have hsome : (List.map Prod.fst c).get? idx =
        some ((List.map Prod.fst c).get ⟨idx, by simpa using h⟩) := by
      rw [List.get?_eq_getElem?, List.getElem?_eq_getElem (by simpa using h)]
      rfl
    rw [hsome]

/-- Witness for claim C9: index 5 into a one-entry cart is an
IndexError, and index 0 into a two-entry cart addresses its first key. -/
theorem update_quantity_positional_addressing_witness :
    (update_quantity 5 true none [(1, PyVal.int 1)] = .error .indexError) ∧
    (update_quantity 0 true none [(1, PyVal.int 1), (2, PyVal.int 3)] =
      update_at_key 1 true none [(1, PyVal.int 1), (2, PyVal.int 3)]) :=
  ⟨(update_quantity_positional_addressing [(1, PyVal.int 1)] 5 true none).1 (by decide),
   (update_quantity_positional_addressing [(1, PyVal.int 1), (2, PyVal.int 3)] 0 true none).2
     (by decide)⟩

/-- Claim C10. The success handler has no precondition: for every
session state (authenticated or not) and every cart, one request to the
success endpoint returns the empty cart and renders the success view. -/
theorem order_success_no_precondition (authed : Bool) (c : Cart) :
    order_success authed c = (([] : Cart), "success.html") := rfl

end Savory
